import Mathlib

/-!
Verification of the historical generation/load/emissions ETL pipeline of the
UtilityCustomers repository, shallowly embedded from the source files
`process_ercot_data.py`, `merge_price_data.py` and `fetch_ercot_data.py`.

Conventions of the embedding:
* Calendar dates are day indices (`Nat`); timestamps are seconds since the
  epoch, so day `d` starts at `d * 86400` and hour bucketing is division
  by `3600`.
* Pandas floating point cell values are modelled as exact rationals (`ℚ`);
  a missing cell (`NaN`) is the absence of the column entry in an
  association list, matching the `skipna` behaviour of pandas `sum`.
* `pd.to_datetime(..., errors='coerce')` is modelled by an `Option`-valued
  parser: `none` is `NaT`.
* String primitives (`replace`, `strip`, `split`, `in`) are re-implemented
  structurally on `List Char` so that they evaluate inside the kernel.
-/

namespace ErcotETL

/-- Structural model of Python `str.replace(' (DST)', '')`: scan left to
right, delete each non-overlapping occurrence of `" (DST)"`. -/
def stripDSTList : List Char → List Char
  | [] => []
  | ' ' :: '(' :: 'D' :: 'S' :: 'T' :: ')' :: rest => stripDSTList rest
  | c :: rest => c :: stripDSTList rest

/-- Structural model of `str.strip()`: drop leading and trailing
whitespace. -/
def trimList (l : List Char) : List Char :=
  ((l.dropWhile Char.isWhitespace).reverse.dropWhile Char.isWhitespace).reverse

/-- Structural substring test on character lists. -/
def containsSub (needle : List Char) : List Char → Bool
  | [] => needle.isEmpty
  | c :: cs => needle.isPrefixOf (c :: cs) || containsSub needle cs

/-- Substring test: does `hay` contain `needle`?  Models Python's `in` on
strings and the pandas `.str.contains(..., regex=False)` test. -/
def strContains (hay needle : String) : Bool :=
  containsSub needle.toList hay.toList

/-- `process_ercot_data.py` line 100:
`full_df['TimeStr'].str.replace(' (DST)', '', regex=False).str.strip()`. -/
def stripDST (s : String) : String :=
  ⟨trimList (stripDSTList s.toList)⟩

/-- Split a character list at every `':'` (model of `"...".split(':')` as
used by the clock-time parser below). -/
def splitCols : List Char → List (List Char)
  | [] => [[]]
  | ':' :: rest => [] :: splitCols rest
  | c :: rest =>
    match splitCols rest with
    | [] => [[c]]
    | g :: gs => (c :: g) :: gs

/-- Numeric field of a clock label: all-digit, non-empty, base-10 value. -/
def fieldToNat (l : List Char) : Option Nat :=
  if !l.isEmpty && l.all Char.isDigit then
    some (l.foldl (fun a c => a * 10 + (c.toNat - 48)) 0)
  else none

/-- Clock-time parser modelling `pd.to_datetime(f"{date} {time}")` on the
time part: accepts `H:MM`, `HH:MM` or `HH:MM:SS` with hour < 24,
minute < 60, second < 60, returning seconds after midnight; anything else
is `none` (pandas `NaT` under `errors='coerce'`). -/
def parseClock (s : String) : Option Nat :=
  match splitCols s.toList with
  | [h, m] =>
    match fieldToNat h, fieldToNat m with
    | some hv, some mv =>
      if hv < 24 && mv < 60 then some (hv * 3600 + mv * 60) else none
    | _, _ => none
  | [h, m, sec] =>
    match fieldToNat h, fieldToNat m, fieldToNat sec with
    | some hv, some mv, some sv =>
      if hv < 24 && mv < 60 && sv < 60 then
        some (hv * 3600 + mv * 60 + sv)
      else none
    | _, _, _ => none
  | _ => none

/-- Timestamp construction of `process_ercot_data.py` lines 99-110: strip
the DST suffix, then rows whose label contains `24:00` get time
`00:00:00` and date `Date + 1 day`; all other labels are parsed as a
same-day clock time, `none` on parse failure. `d` is a day index, the
result is in seconds. -/
def toTimestamp (d : Nat) (label : String) : Option Nat :=
  let t := stripDST label
  if strContains t "24:00" then
    some ((d + 1) * 86400)
  else
    (parseClock t).map (fun secs => d * 86400 + secs)

/-- One melted record of `process_ercot_data.py` line 60: a
(date, interval-label, fuel, megawatt) long-form row. -/
structure MeltedRow where
  date : Nat
  time : String
  fuel : String
  mw : ℚ
deriving DecidableEq

/-- One cell of the pivot of line 91,
`melted.pivot_table(index=['Date','Time'], columns='Fuel', values='MW',
aggfunc='sum')`: the sum of the megawatt values of all melted rows with
this date, interval label and fuel. -/
def pivotCell (melted : List MeltedRow) (d : Nat) (t f : String) : ℚ :=
  ((melted.filter
      (fun r => r.date == d && r.time == t && r.fuel == f)).map
    MeltedRow.mw).sum

/-- A row of the concatenated pivoted frame (lines 91-95): a date, an
interval label and one value per fuel column; a fuel column missing in
this row (pandas `NaN`) is simply absent from the association list. -/
structure PivotRow where
  date : Nat
  time : String
  vals : List (String × ℚ)
deriving DecidableEq

/-- A pivoted row after timestamp construction (line 110). -/
structure TsRow where
  ts : Nat
  vals : List (String × ℚ)
deriving DecidableEq

/-- Lines 110-113: build `Timestamp` with `errors='coerce'` and then
`dropna(subset=['Timestamp'])` — rows whose timestamp did not parse are
removed, the rest keep their parsed timestamp. -/
def buildRows (prows : List PivotRow) : List TsRow :=
  prows.filterMap
    (fun r => (toTimestamp r.date r.time).map (fun ts => ⟨ts, r.vals⟩))

/-- Hour bucket of a timestamp in seconds (`resample('h')` bucketing). -/
def floorHour (ts : Nat) : Nat := ts / 3600

/-- Value of column `c` in one row: the stored cell, or 0 when the cell is
missing (pandas sums with `skipna`, so a missing cell contributes 0). -/
def colVal (vals : List (String × ℚ)) (c : String) : ℚ :=
  match vals.find? (fun p => p.1 == c) with
  | some p => p.2
  | none => 0

/-- One cell of `numeric_cols.resample('h').sum()` (line 123): the sum of
column `c` over every row whose timestamp falls in hour bucket `h`; an
empty bucket sums to 0. -/
def hourlyCell (rows : List TsRow) (h : Nat) (c : String) : ℚ :=
  ((rows.filter (fun r => floorHour r.ts == h)).map
    (fun r => colVal r.vals c)).sum

/-- Hour bucket of the earliest timestamp of the frame (0 if empty). -/
def minHour (rows : List TsRow) : Nat :=
  match rows.map (fun r => floorHour r.ts) with
  | [] => 0
  | h :: t => t.foldl min h

/-- Hour bucket of the latest timestamp of the frame (0 if empty). -/
def maxHour (rows : List TsRow) : Nat :=
  match rows.map (fun r => floorHour r.ts) with
  | [] => 0
  | h :: t => t.foldl max h

/-- The index produced by `resample('h')` after `sort_index()` (lines
116-123): every hour bucket from the floor of the earliest timestamp to
the floor of the latest, inclusive, in order. -/
def hourIndex (rows : List TsRow) : List Nat :=
  if rows.isEmpty then []
  else
    (List.range (maxHour rows + 1 - minHour rows)).map
      (fun i => minHour rows + i)

/-- Line 127, `hourly['Load'] = hourly.sum(axis=1)`: the row-wise sum over
the fuel columns present at that point. -/
def hourlyLoad (rows : List TsRow) (fuels : List String) (h : Nat) : ℚ :=
  (fuels.map (fun c => hourlyCell rows h c)).sum

/-- Lines 9-19 of `process_ercot_data.py`: the fixed fuel → emission
factor table (tons CO2/MWh), in its source order. -/
def EMISSION_FACTORS : List (String × ℚ) :=
  [("Coal", 1), ("Gas", 43/100), ("Gas-CC", 2/5), ("Biomass", 0),
   ("Wind", 0), ("Solar", 0), ("Nuclear", 0), ("Hydro", 0),
   ("Other", 43/100)]

/-- Case-insensitive substring test, modelling
`fuel.lower() in col.lower()` of line 137. -/
def strContainsCI (hay needle : String) : Bool :=
  containsSub (needle.toList.map Char.toLower) (hay.toList.map Char.toLower)

/-- Lines 129-140: `Emissions` starts at 0 and, iterating the factor table
in order, adds `column * factor` for every column whose name contains the
factor key case-insensitively, skipping any column whose name contains
"Emissions" and the `Load`/`Price` columns.  (The freshly added
`Emissions_*` columns of line 139 are skipped by the "Emissions" test, so
iterating only the original columns is equivalent to the source loop.) -/
def emissionsOf (cols : List (String × ℚ)) : ℚ :=
  EMISSION_FACTORS.foldl
    (fun acc fk =>
      cols.foldl
        (fun acc2 cv =>
          if strContains cv.1 "Emissions" then acc2
          else if cv.1 == "Load" || cv.1 == "Price" then acc2
          else if strContainsCI cv.1 fk.1 then acc2 + cv.2 * fk.2
          else acc2)
        acc)
    0

/-- One output row of the hourly table (lines 123-143): the fuel columns,
then `Load` (line 127), then `Emissions` computed over the columns present
at that point (`Load` included but skipped by the loop), then the `Price`
placeholder 0.0 (line 143). -/
def hourlyRow (rows : List TsRow) (fuels : List String) (h : Nat) :
    List (String × ℚ) :=
  let fuelCols := fuels.map (fun c => (c, hourlyCell rows h c))
  let load := hourlyLoad rows fuels h
  [("Load", load), ("Emissions", emissionsOf (fuelCols ++ [("Load", load)])),
   ("Price", 0)] |> (fuelCols ++ ·)

/-- The hourly table produced by `process_ercot_data.py` from the
concatenated pivoted rows: timestamp construction and NaT dropping, then
one row per hour of the resampled index.  `fuels` is the list of fuel
columns of the concatenated frame. -/
def pipelineHourly (prows : List PivotRow) (fuels : List String) :
    List (Nat × List (String × ℚ)) :=
  let rows := buildRows prows
  (hourIndex rows).map (fun h => (h, hourlyRow rows fuels h))

/-- A row of the saved hourly table as reloaded by
`merge_price_data.py` lines 8-10: an hour timestamp and its columns,
including the placeholder `Price`. -/
structure MainRow where
  ts : Nat
  cols : List (String × ℚ)
deriving DecidableEq

/-- `merge_price_data.py` lines 12-14: drop the existing `Price` column. -/
def dropPrice (cols : List (String × ℚ)) : List (String × ℚ) :=
  cols.filter (fun p => !(p.1 == "Price"))

/-- Line 66, `df_main.join(df_prices, how='left')` after the `Price` drop:
every main row is kept; its new price is the matching price-series entry,
or missing (`NaN`, modelled as `none`) when no price row has its hour. -/
def joinPrice (main : List MainRow) (prices : List (Nat × ℚ)) :
    List (Nat × List (String × ℚ) × Option ℚ) :=
  main.map
    (fun r =>
      (r.ts, dropPrice r.cols,
        (prices.find? (fun p => p.1 == r.ts)).map (fun p => p.2)))

/-- `merge_price_data.py` lines 61-72: when at least one yearly price file
was read, the main file is rewritten as the left join of the main table
(with `Price` dropped first) and the concatenated price series; with no
price files the script only prints "No price data found." and leaves the
main file untouched. -/
def mergeStage (main : List MainRow) (priceDfs : List (List (Nat × ℚ))) :
    Except String (List (Nat × List (String × ℚ) × Option ℚ)) :=
  if priceDfs.isEmpty then Except.error "No price data found."
  else Except.ok (joinPrice main priceDfs.flatten)

/-- `fetch_ercot_data.py` lines 33-46: when at least one matching workbook
was read the frames are concatenated and saved; otherwise the script only
prints "No matching years found." and writes nothing. -/
def fetchStage {α : Type} (dfs : List (List α)) : Except String (List α) :=
  if dfs.isEmpty then Except.error "No matching years found."
  else Except.ok dfs.flatten

/-- `process_ercot_data.py` lines 94-95: `pd.concat(dfs)` raises
`ValueError` when no workbook matched, halting the script before any
output is written. -/
def concatStage {α : Type} (dfs : List (List α)) : Except String (List α) :=
  if dfs.isEmpty then Except.error "ValueError: No objects to concatenate"
  else Except.ok dfs.flatten

/-- The C6 scenario workbook: one January sheet, two fuel types, four
quarter-hour intervals of one day, all inside hour 5. -/
def c6Input : List PivotRow :=
  [⟨0, "05:00", [("Wind", 10), ("Gas", 5)]⟩,
   ⟨0, "05:15", [("Wind", 20), ("Gas", 6)]⟩,
   ⟨0, "05:30", [("Wind", 30), ("Gas", 7)]⟩,
   ⟨0, "05:45", [("Wind", 40), ("Gas", 8)]⟩]

/-- A source frame with records in hours 0 and 2 of day 0 but none in
hour 1 (used to witness the gap-hour behaviour of the resampler). -/
def c10Input : List PivotRow :=
  [⟨0, "00:30", [("Wind", 3)]⟩, ⟨0, "02:30", [("Wind", 4)]⟩]

end ErcotETL

/-- Any successfully parsed clock time is strictly inside one day. -/
theorem ErcotETL.parseClock_lt_day (s : String) (secs : Nat)
    (h : parseClock s = some secs) : secs < 86400 := by
  unfold parseClock at h
  split at h
  · split at h
    · split at h
      · rename_i hcond
        simp only [Bool.and_eq_true, decide_eq_true_eq] at hcond
        cases h
        omega
      · exact absurd h (by simp)
    · exact absurd h (by simp)
  · split at h
    · split at h
      · rename_i hcond
        simp only [Bool.and_eq_true, decide_eq_true_eq] at hcond
        cases h
        omega
      · exact absurd h (by simp)
    · exact absurd h (by simp)
  · exact absurd h (by simp)

/-- C1: a melted interval label containing "24:00" (after stripping a
" (DST)" suffix) is attributed to 00:00 of the day after the row's date —
never dropped, never kept on the same day — and every other label that
parses at all yields a timestamp inside the row's own calendar day. -/
theorem c1_interval_24_rollover (d : Nat) (label : String) :
    (ErcotETL.strContains (ErcotETL.stripDST label) "24:00" = true →
      ErcotETL.toTimestamp d label = some ((d + 1) * 86400)) ∧
    (ErcotETL.strContains (ErcotETL.stripDST label) "24:00" = false →
      ∀ ts, ErcotETL.toTimestamp d label = some ts →
        d * 86400 ≤ ts ∧ ts < (d + 1) * 86400) := by
  constructor
  · intro h24
    simp [ErcotETL.toTimestamp, h24]
  · intro h24 ts hts
    rw [ErcotETL.toTimestamp] at hts
    simp only [h24, Bool.false_eq_true, if_false, Option.map_eq_some'] at hts
    obtain ⟨secs, hsecs, rfl⟩ := hts
    have hlt : secs < 86400 := ErcotETL.parseClock_lt_day _ _ hsecs
    omega

/-- Witness for C1 at concrete labels: "24:00 (DST)" on day 3 rolls to
00:00 of day 4, and "13:45" parses inside day 3. -/
theorem c1_interval_24_rollover_witness :
    ErcotETL.toTimestamp 3 "24:00 (DST)" = some (4 * 86400) ∧
    (3 * 86400 ≤ 3 * 86400 + 49500 ∧ 3 * 86400 + 49500 < 4 * 86400) := by
  refine ⟨(c1_interval_24_rollover 3 "24:00 (DST)").1 (by decide), ?_⟩
  exact (c1_interval_24_rollover 3 "13:45").2 (by decide)
    (3 * 86400 + 49500) (by decide)

/-- C4: at the pivot step, two melted rows that share (date, fuel-type) at
one interval label have their megawatt values summed in the pivoted cell
(`aggfunc='sum'`), never one value overwriting the other. -/
theorem c4_duplicate_fuel_rows_sum (r1 r2 : ErcotETL.MeltedRow)
    (rest : List ErcotETL.MeltedRow) (d : Nat) (t f : String)
    (h1 : r1.date = d ∧ r1.time = t ∧ r1.fuel = f)
    (h2 : r2.date = d ∧ r2.time = t ∧ r2.fuel = f) :
    ErcotETL.pivotCell (r1 :: r2 :: rest) d t f =
      r1.mw + r2.mw + ErcotETL.pivotCell rest d t f := by
  obtain ⟨hd1, ht1, hf1⟩ := h1
  obtain ⟨hd2, ht2, hf2⟩ := h2
  simp [ErcotETL.pivotCell, List.filter_cons, hd1, ht1, hf1, hd2, ht2, hf2]
  ring

/-- Witness for C4: two "Gas" rows of the same date and interval, values 3
and 4, pivot to 3 + 4. -/
theorem c4_duplicate_fuel_rows_sum_witness :
    ErcotETL.pivotCell
      [⟨7, "00:15", "Gas", 3⟩, ⟨7, "00:15", "Gas", 4⟩] 7 "00:15" "Gas" =
      3 + 4 + ErcotETL.pivotCell [] 7 "00:15" "Gas" :=
  c4_duplicate_fuel_rows_sum ⟨7, "00:15", "Gas", 3⟩ ⟨7, "00:15", "Gas", 4⟩
    [] 7 "00:15" "Gas" ⟨rfl, rfl, rfl⟩ ⟨rfl, rfl, rfl⟩

/-- C7: a long-form row reaches the aggregation stage exactly when its
combined date and interval label parses to a timestamp — rows whose
timestamp fails to parse are dropped (never kept with a defaulted
timestamp), and every row that parses continues with its parsed
timestamp. -/
theorem c7_unparseable_rows_dropped (prows : List ErcotETL.PivotRow)
    (tr : ErcotETL.TsRow) :
    tr ∈ ErcotETL.buildRows prows ↔
      ∃ r ∈ prows, ErcotETL.toTimestamp r.date r.time = some tr.ts ∧
        tr.vals = r.vals := by
  constructor
  · intro h
    rw [ErcotETL.buildRows, List.mem_filterMap] at h
    obtain ⟨r, hr, hmap⟩ := h
    rw [Option.map_eq_some'] at hmap
    obtain ⟨ts, hts, heq⟩ := hmap
    cases heq
    exact ⟨r, hr, hts, rfl⟩
  · rintro ⟨r, hr, hts, hvals⟩
    cases tr with
    | mk a b =>
      dsimp only at hts hvals
      rw [ErcotETL.buildRows, List.mem_filterMap]
      exact ⟨r, hr, by rw [hts, Option.map_some', hvals]⟩

/-- C2 counterexample: the code's hourly aggregation has no "mean" mode —
it is the hardcoded `resample('h').sum()`, which on the four 15-minute
values [10, 20, 30, 40] of one hour yields 100, never 25. -/
theorem c2_no_mean_mode_counterexample :
    ErcotETL.hourlyCell
      [⟨0, [("Wind", 10)]⟩, ⟨900, [("Wind", 20)]⟩,
       ⟨1800, [("Wind", 30)]⟩, ⟨2700, [("Wind", 40)]⟩] 0 "Wind" = 100 ∧
    ¬ ErcotETL.hourlyCell
      [⟨0, [("Wind", 10)]⟩, ⟨900, [("Wind", 20)]⟩,
       ⟨1800, [("Wind", 30)]⟩, ⟨2700, [("Wind", 40)]⟩] 0 "Wind" = 25 := by
  norm_num [ErcotETL.hourlyCell, ErcotETL.colVal, ErcotETL.floorHour,
    List.filter_cons]

/-- C2 amended: the hourly aggregation mode is not configurable — the code
unconditionally sums, so an hour holding four 15-minute values a, b, c, d
of one fuel aggregates to a + b + c + d ([10, 20, 30, 40] gives 100,
four times the 25 the "mean" mode would give). -/
theorem c2_hourly_aggregation_is_sum (a b c d : ℚ) :
    ErcotETL.hourlyCell
      [⟨0, [("Wind", a)]⟩, ⟨900, [("Wind", b)]⟩,
       ⟨1800, [("Wind", c)]⟩, ⟨2700, [("Wind", d)]⟩] 0 "Wind" =
      a + b + c + d := by
  simp [ErcotETL.hourlyCell, ErcotETL.colVal, ErcotETL.floorHour,
    List.filter_cons]
  ring

/-- C9: after hourly aggregation the hour timestamps of the output table
are strictly increasing from row to row, and no hour occurs twice — the
hour timestamp is a primary key. -/
theorem c9_hour_index_primary_key (prows : List ErcotETL.PivotRow)
    (fuels : List String) :
    ((ErcotETL.pipelineHourly prows fuels).map Prod.fst).Pairwise (· < ·) ∧
    ((ErcotETL.pipelineHourly prows fuels).map Prod.fst).Nodup := by
  have hmap : (ErcotETL.pipelineHourly prows fuels).map Prod.fst =
      ErcotETL.hourIndex (ErcotETL.buildRows prows) := by
    rw [ErcotETL.pipelineHourly, List.map_map]
    simp [Function.comp_def]
  rw [hmap]
  have hpw : (ErcotETL.hourIndex (ErcotETL.buildRows prows)).Pairwise
      (· < ·) := by
    rw [ErcotETL.hourIndex]
    split
    · exact List.Pairwise.nil
    · rw [List.pairwise_map]
      exact (List.pairwise_lt_range _).imp
        (fun hab => Nat.add_lt_add_left hab _)
  exact ⟨hpw, hpw.imp Nat.ne_of_lt⟩

/-- C3: `Emissions` iterates the fixed factor table, adding
column x factor for every column whose name contains the factor key as a
case-insensitive substring: a Coal column of value 100 with factor 1.0
contributes 100 tons; with both "Gas" and "Gas-CC" columns present both
contribute, the "Gas-CC" column once per matching key (0.43 under "Gas"
and 0.4 under "Gas-CC"); zero-factor fuels and the skipped `Load` column
add nothing. -/
theorem c3_emissions_substring_double_count (c g h w : ℚ) :
    (ErcotETL.emissionsOf
      [("Coal", c), ("Gas", g), ("Gas-CC", h), ("Wind", w), ("Load", 999)] =
      c * 1 + g * (43/100) + (h * (43/100) + h * (2/5)) + w * 0) ∧
    ErcotETL.emissionsOf [("Coal", 100)] = 100 := by
  constructor
  · show ((((0 + c * 1) + g * (43/100)) + h * (43/100)) + h * (2/5)) + w * 0 =
      c * 1 + g * (43/100) + (h * (43/100) + h * (2/5)) + w * 0
    ring
  · show (0 : ℚ) + 100 * 1 = 100
    norm_num

/-- C5 counterexample: with a price file present whose series lacks hour 0,
the aggregated row for hour 0 is kept by the left join but its `Price`
comes out missing (`NaN`, here `none`), not the placeholder 0.0 — the
placeholder `Price` column is dropped before the join. -/
theorem c5_placeholder_not_retained_counterexample :
    ErcotETL.mergeStage [⟨0, [("Load", 1), ("Price", 0)]⟩] [[(1, 50)]] =
      Except.ok [(0, [("Load", 1)], (none : Option ℚ))] ∧
    (none : Option ℚ) ≠ some 0 := by
  refine ⟨rfl, fun hc => Option.noConfusion hc⟩

/-- C5 amended: the price merge is a left outer join on hour timestamp —
every hour of the aggregated table survives into the final table; but an
hour absent from every price file ends with a missing (`NaN`) `Price`
rather than the placeholder 0.0, the placeholder column having been
dropped before the join. -/
theorem c5_left_join_keeps_unpriced_hours (main : List ErcotETL.MainRow)
    (priceDfs : List (List (Nat × ℚ)))
    (out : List (Nat × List (String × ℚ) × Option ℚ))
    (hok : ErcotETL.mergeStage main priceDfs = Except.ok out) :
    out.map Prod.fst = main.map ErcotETL.MainRow.ts ∧
    ∀ r ∈ main, priceDfs.flatten.find? (fun p => p.1 == r.ts) = none →
      (r.ts, ErcotETL.dropPrice r.cols, (none : Option ℚ)) ∈ out := by
  rw [ErcotETL.mergeStage] at hok
  split at hok
  · exact absurd hok (by simp)
  · cases hok
    constructor
    · rw [ErcotETL.joinPrice, List.map_map]
      rfl
    · intro r hr hfind
      rw [ErcotETL.joinPrice, List.mem_map]
      exact ⟨r, hr, by rw [hfind]; rfl⟩

/-- Witness for C5 amended: one aggregated row at hour 0, one price file
holding only hour 1; the hour-0 row survives with a missing price. -/
theorem c5_left_join_keeps_unpriced_hours_witness :
    ([((0 : Nat), ([("Load", (1 : ℚ))], (none : Option ℚ)))].map Prod.fst =
      [(⟨0, [("Load", 1), ("Price", 0)]⟩ : ErcotETL.MainRow)].map
        ErcotETL.MainRow.ts) ∧
    ∀ r ∈ [(⟨0, [("Load", 1), ("Price", 0)]⟩ : ErcotETL.MainRow)],
      ([[((1 : Nat), (50 : ℚ))]].flatten.find? (fun p => p.1 == r.ts)) =
        none →
      (r.ts, ErcotETL.dropPrice r.cols, (none : Option ℚ)) ∈
        [((0 : Nat), ([("Load", (1 : ℚ))], (none : Option ℚ)))] :=
  c5_left_join_keeps_unpriced_hours
    [⟨0, [("Load", 1), ("Price", 0)]⟩] [[(1, 50)]]
    [(0, [("Load", 1)], none)] rfl

/-- C8: with no matching inputs every stage halts without writing an
output file: the workbook scanner reports "No matching years found.", the
price merger reports "No price data found." whatever the main table, and
the processor's concatenation of zero frames raises a `ValueError`. -/
theorem c8_no_input_halts_with_diagnostic :
    ErcotETL.fetchStage ([] : List (List Nat)) =
      Except.error "No matching years found." ∧
    (∀ main : List ErcotETL.MainRow,
      ErcotETL.mergeStage main [] = Except.error "No price data found.") ∧
    ErcotETL.concatStage ([] : List (List ErcotETL.PivotRow)) =
      Except.error "ValueError: No objects to concatenate" :=
  ⟨rfl, fun _ => rfl, rfl⟩

/-- Summing a column of zeros gives zero (helper for the gap-hour rows). -/
theorem ErcotETL.sum_map_zero (l : List String) :
    (l.map (fun _ => (0 : ℚ))).sum = 0 := by
  induction l with
  | nil => rfl
  | cons a t ih => simp [ih]

/-- C10: resample-and-sum materializes every hour between the floor of the
earliest and the floor of the latest parsed timestamp: each such hour is a
row of the hourly output, and when no parsed record falls inside it every
fuel cell of that hour — and hence its `Load` — is 0, rather than the hour
being omitted. -/
theorem c10_gap_hours_materialized_as_zero (prows : List ErcotETL.PivotRow)
    (fuels : List String) (h : Nat)
    (hne : ErcotETL.buildRows prows ≠ [])
    (hlo : ErcotETL.minHour (ErcotETL.buildRows prows) ≤ h)
    (hhi : h ≤ ErcotETL.maxHour (ErcotETL.buildRows prows)) :
    (h, ErcotETL.hourlyRow (ErcotETL.buildRows prows) fuels h) ∈
      ErcotETL.pipelineHourly prows fuels ∧
    ((∀ r ∈ ErcotETL.buildRows prows, ErcotETL.floorHour r.ts ≠ h) →
      (∀ c, ErcotETL.hourlyCell (ErcotETL.buildRows prows) h c = 0) ∧
      ErcotETL.hourlyLoad (ErcotETL.buildRows prows) fuels h = 0) := by
  constructor
  · have hmem : h ∈ ErcotETL.hourIndex (ErcotETL.buildRows prows) := by
      rw [ErcotETL.hourIndex, if_neg (by simpa using hne)]
      exact List.mem_map.mpr
        ⟨h - ErcotETL.minHour (ErcotETL.buildRows prows),
         List.mem_range.mpr (by omega), by omega⟩
    exact List.mem_map.mpr ⟨h, hmem, rfl⟩
  · intro hgap
    have hfil : (ErcotETL.buildRows prows).filter
        (fun r => ErcotETL.floorHour r.ts == h) = [] := by
      rw [List.filter_eq_nil_iff]
      intro r hr
      simpa using hgap r hr
    have hcell : ∀ c, ErcotETL.hourlyCell (ErcotETL.buildRows prows) h c =
        0 := by
      intro c
      rw [ErcotETL.hourlyCell, hfil]
      rfl
    refine ⟨hcell, ?_⟩
    rw [ErcotETL.hourlyLoad]
    calc (fuels.map
          (fun c => ErcotETL.hourlyCell (ErcotETL.buildRows prows) h c)).sum
        = (fuels.map (fun _ => (0 : ℚ))).sum := by
          exact congrArg List.sum (List.map_congr_left (fun c _ => hcell c))
      _ = 0 := ErcotETL.sum_map_zero fuels

/-- Witness for C10: records in hours 0 and 2 only; hour 1 still appears
in the output with a zero Wind cell and zero Load. -/
theorem c10_gap_hours_materialized_as_zero_witness :
    ((1, ErcotETL.hourlyRow (ErcotETL.buildRows ErcotETL.c10Input)
        ["Wind"] 1) ∈
      ErcotETL.pipelineHourly ErcotETL.c10Input ["Wind"] ∧
    ((∀ r ∈ ErcotETL.buildRows ErcotETL.c10Input,
        ErcotETL.floorHour r.ts ≠ 1) →
      (∀ c, ErcotETL.hourlyCell (ErcotETL.buildRows ErcotETL.c10Input) 1 c =
        0) ∧
      ErcotETL.hourlyLoad (ErcotETL.buildRows ErcotETL.c10Input)
        ["Wind"] 1 = 0)) :=
  c10_gap_hours_materialized_as_zero ErcotETL.c10Input ["Wind"] 1
    (by decide) (by decide) (by decide)

/-- C6: end-to-end, a single January sheet with Wind and Gas over four
quarter-hour intervals of one hour of one day and no price files yields
exactly one hourly row, with `Wind` and `Gas` populated, `Load` their sum,
`Emissions` equal to the Gas value times 0.43 (559/50 = 26 * 0.43) and
`Price` 0.0; the merge stage without price files reports and rewrites
nothing, so the placeholder survives. -/
theorem c6_end_to_end_single_hour :
    ErcotETL.pipelineHourly ErcotETL.c6Input ["Wind", "Gas"] =
      [(5, [("Wind", 100), ("Gas", 26), ("Load", 126),
            ("Emissions", 559/50), ("Price", 0)])] ∧
    (∀ main : List ErcotETL.MainRow,
      ErcotETL.mergeStage main [] =
        Except.error "No price data found.") := by
  constructor
  · have hwind : ErcotETL.hourlyCell (ErcotETL.buildRows ErcotETL.c6Input)
        5 "Wind" = 100 := by
      show (10 : ℚ) + (20 + (30 + (40 + 0))) = 100
      norm_num
    have hgas : ErcotETL.hourlyCell (ErcotETL.buildRows ErcotETL.c6Input)
        5 "Gas" = 26 := by
      show (5 : ℚ) + (6 + (7 + (8 + 0))) = 26
      norm_num
    have hload : ErcotETL.hourlyLoad (ErcotETL.buildRows ErcotETL.c6Input)
        ["Wind", "Gas"] 5 = 126 := by
      rw [ErcotETL.hourlyLoad]
      rw [show (["Wind", "Gas"].map
          (fun c => ErcotETL.hourlyCell
            (ErcotETL.buildRows ErcotETL.c6Input) 5 c)) =
        [ErcotETL.hourlyCell (ErcotETL.buildRows ErcotETL.c6Input) 5 "Wind",
         ErcotETL.hourlyCell (ErcotETL.buildRows ErcotETL.c6Input) 5 "Gas"]
        from rfl]
      rw [hwind, hgas]
      norm_num
    have hemis : ErcotETL.emissionsOf
        ([("Wind", (100 : ℚ)), ("Gas", 26)] ++ [("Load", 126)]) =
        559/50 := by
      show ((0 : ℚ) + 26 * (43/100)) + 100 * 0 = 559/50
      norm_num
    have hrow : ErcotETL.hourlyRow (ErcotETL.buildRows ErcotETL.c6Input)
        ["Wind", "Gas"] 5 =
        [("Wind", 100), ("Gas", 26), ("Load", 126),
         ("Emissions", 559/50), ("Price", 0)] := by
      show [("Wind", ErcotETL.hourlyCell (ErcotETL.buildRows ErcotETL.c6Input)
              5 "Wind"),
            ("Gas", ErcotETL.hourlyCell (ErcotETL.buildRows ErcotETL.c6Input)
              5 "Gas")] ++
           [("Load", ErcotETL.hourlyLoad (ErcotETL.buildRows ErcotETL.c6Input)
              ["Wind", "Gas"] 5),
            ("Emissions", ErcotETL.emissionsOf
              ([("Wind", ErcotETL.hourlyCell
                  (ErcotETL.buildRows ErcotETL.c6Input) 5 "Wind"),
                ("Gas", ErcotETL.hourlyCell
                  (ErcotETL.buildRows ErcotETL.c6Input) 5 "Gas")] ++
               [("Load", ErcotETL.hourlyLoad
                  (ErcotETL.buildRows ErcotETL.c6Input) ["Wind", "Gas"] 5)])),
            ("Price", 0)] =
        [("Wind", 100), ("Gas", 26), ("Load", 126),
         ("Emissions", 559/50), ("Price", 0)]
      rw [hwind, hgas, hload, hemis]
      rfl
    show [(5, ErcotETL.hourlyRow (ErcotETL.buildRows ErcotETL.c6Input)
        ["Wind", "Gas"] 5)] =
      [(5, [("Wind", 100), ("Gas", 26), ("Load", 126),
            ("Emissions", 559/50), ("Price", 0)])]
    rw [hrow]
  · exact fun _ => rfl
